import Mathlib

/-!
Verification development for the stacks-transactions-js repository.

The definitions below are a shallow embedding of the TypeScript sources:

* `src/src/contract-abi.ts` — the Clarity ABI type model (`ClarityAbiType`),
  the structural matcher `matchType`, the type-string printers, the
  string-to-value coercion `encodeClarityValue`, and the contract-call
  validator `validateContractCall`.
* `src/unnamed/part_002` (the transaction builders file) — the fee
  estimators `estimateTransfer`, `estimateContractDeploy`,
  `estimateContractFunctionCall` and the builders `makeSTXTokenTransfer`,
  `makeSmartContractDeploy`, `makeContractCall`.

Repository modules that are imported by those files but are not included
under `src/` (clarity.ts, payload.ts, constants.ts, authorization.ts,
signer.ts, keys.ts) are modelled from the specification; every such
definition carries a doc comment starting with `Modelled from the spec:`.
-/

namespace StacksTx

/-- Embeds the `ClarityAbiType` union of contract-abi.ts (lines 31-56): a
primitive string tag (`uint128`, `int128`, `bool`, `principal`, `none`) or a
nested object keyed by `buffer` / `response` / `optional` / `tuple` / `list`. -/
inductive ClarityAbiType where
  | uint128 : ClarityAbiType
  | int128 : ClarityAbiType
  | bool : ClarityAbiType
  | principal : ClarityAbiType
  | none : ClarityAbiType
  | buffer (length : Nat) : ClarityAbiType
  | response (ok error : ClarityAbiType) : ClarityAbiType
  | optional (inner : ClarityAbiType) : ClarityAbiType
  | tuple (fields : List (String × ClarityAbiType)) : ClarityAbiType
  | list (elem : ClarityAbiType) (length : Nat) : ClarityAbiType

/-- Embeds the `ClarityAbiTypeId` enum of contract-abi.ts (lines 58-69),
combined with `getTypeUnion` (lines 96-124): every well-formed ABI type is
tagged with its numeric discriminator. -/
def typeIdOf : ClarityAbiType → Nat
  | .uint128 => 1
  | .int128 => 2
  | .bool => 3
  | .principal => 4
  | .none => 5
  | .buffer _ => 6
  | .response _ _ => 7
  | .optional _ => 8
  | .tuple _ => 9
  | .list _ _ => 10

/-- Embeds `isClarityAbiPrimitive` (contract-abi.ts line 71): a primitive ABI
type is one represented by a plain string tag. -/
def isClarityAbiPrimitive : ClarityAbiType → Bool
  | .uint128 => true
  | .int128 => true
  | .bool => true
  | .principal => true
  | .none => true
  | _ => false

/-- Embeds `isClarityAbiBuffer` (contract-abi.ts line 73). -/
def isClarityAbiBuffer : ClarityAbiType → Bool
  | .buffer _ => true
  | _ => false

/-- Embeds `isClarityAbiResponse` (contract-abi.ts line 75). -/
def isClarityAbiResponse : ClarityAbiType → Bool
  | .response _ _ => true
  | _ => false

/-- Embeds `isClarityAbiOptional` (contract-abi.ts line 77). -/
def isClarityAbiOptional : ClarityAbiType → Bool
  | .optional _ => true
  | _ => false

/-- Embeds `isClarityAbiTuple` (contract-abi.ts line 79). -/
def isClarityAbiTuple : ClarityAbiType → Bool
  | .tuple _ => true
  | _ => false

/-- Embeds `isClarityAbiList` (contract-abi.ts line 81). -/
def isClarityAbiList : ClarityAbiType → Bool
  | .list _ _ => true
  | _ => false

/-- Modelled from the spec: the `ClarityValue` tagged union of src/clarity
(imported by contract-abi.ts but not included under src/). Spec section 3
lists the variants: `BoolTrue`, `BoolFalse`, `Int128`, `UInt128`, `Buffer`,
`OptionalNone`, `OptionalSome`, `ResponseOk`, `ResponseErr`,
`PrincipalStandard`, `PrincipalContract`, `List`, `Tuple`. A buffer carries
its bytes (`cv.buffer.length` is the byte count), a list carries its
elements (`cv.list`), and a tuple carries a name-to-value record
(`cv.data`) whose keys are unique, represented here as an association
list. -/
inductive ClarityValue where
  | boolTrue : ClarityValue
  | boolFalse : ClarityValue
  | int (value : Int) : ClarityValue
  | uint (value : Nat) : ClarityValue
  | buffer (bytes : List Nat) : ClarityValue
  | optionalNone : ClarityValue
  | optionalSome (value : ClarityValue) : ClarityValue
  | responseErr (value : ClarityValue) : ClarityValue
  | responseOk (value : ClarityValue) : ClarityValue
  | principalStandard (address : String) : ClarityValue
  | principalContract (address name : String) : ClarityValue
  | list (values : List ClarityValue) : ClarityValue
  | tuple (data : List (String × ClarityValue)) : ClarityValue

/-- Embeds the JavaScript record access `tuple[key]` used by `matchType`
(contract-abi.ts line 300) on the association-list representation of a
tuple record: the value at the first entry carrying the key, if any. -/
def lookupEntry (key : String) : List (String × ClarityValue) → Option ClarityValue
  | [] => Option.none
  | (k, v) :: rest => if k == key then some v else lookupEntry key rest

/-- Embeds the JavaScript statement `delete tuple[key]` used by `matchType`
(contract-abi.ts line 308): removes the entries carrying the key (a
JavaScript record holds at most one). -/
def eraseEntry (key : String) : List (String × ClarityValue) → List (String × ClarityValue)
  | [] => []
  | (k, v) :: rest => if k == key then eraseEntry key rest else (k, v) :: eraseEntry key rest

mutual

/-- Embeds `matchType` (contract-abi.ts lines 249-318): the structural
matcher between a runtime Clarity value and a declared ABI type. The source
switches on `cv.type` and compares the discriminator of
`getTypeUnion(abiType)`; a case analysis on both constructors reproduces
that truth table, with the buffer case also requiring
`union.type.buffer.length === cv.buffer.length`, the list case requiring
`union.type.list.length === cv.list.length` plus an elementwise match, and
the tuple case delegating to the field loop (`matchTupleEntries`). Every
uncovered combination falls to the default arm and returns false. -/
def matchType (cv : ClarityValue) (abiType : ClarityAbiType) : Bool :=
  match cv, abiType with
  | .boolTrue, .bool => true
  | .boolFalse, .bool => true
  | .int _, .int128 => true
  | .uint _, .uint128 => true
  | .buffer bytes, .buffer len => len == bytes.length
  | .optionalNone, .none => true
  | .optionalNone, .optional _ => true
  | .optionalSome v, .optional inner => matchType v inner
  | .responseErr v, .response _ err => matchType v err
  | .responseOk v, .response ok _ => matchType v ok
  | .principalStandard _, .principal => true
  | .principalContract _ _, .principal => true
  | .list values, .list elem len => len == values.length && matchAllElems values elem
  | .tuple data, .tuple fields => matchTupleEntries fields data
  | _, _ => false
termination_by (sizeOf abiType, 0)

/-- Embeds the `_.every(cv.list, val => matchType(val, union.type.list.type))`
call of `matchType` (contract-abi.ts line 292): every element of the list
value matches the declared element type. -/
def matchAllElems (values : List ClarityValue) (elem : ClarityAbiType) : Bool :=
  match values with
  | [] => true
  | v :: rest => matchType v elem && matchAllElems rest elem
termination_by (sizeOf elem, 1 + sizeOf values)

/-- Embeds the tuple loop of `matchType` (contract-abi.ts lines 296-313):
walk the declared fields in order over a working copy of the tuple record;
a declared field whose name is absent from the copy fails, a present field
must match its declared type and is then deleted from the copy. -/
def matchTupleEntries (fields : List (String × ClarityAbiType)) (data : List (String × ClarityValue)) : Bool :=
  match fields with
  | [] => true
  | (name, fieldType) :: rest =>
    match lookupEntry name data with
    | some v => if matchType v fieldType then matchTupleEntries rest (eraseEntry name data) else false
    | Option.none => false
termination_by (sizeOf fields, 0)

end

mutual

/-- Embeds `getTypeString` (contract-abi.ts lines 172-193): prints the
Clarity type string of a declared ABI type. -/
def getTypeString : ClarityAbiType → String
  | .int128 => "int"
  | .uint128 => "uint"
  | .bool => "bool"
  | .principal => "principal"
  | .none => "none"
  | .buffer len => "(buff " ++ toString len ++ ")"
  | .response ok err => "(response " ++ getTypeString ok ++ " " ++ getTypeString err ++ ")"
  | .optional inner => "(optional " ++ getTypeString inner ++ ")"
  | .tuple fields => "(tuple " ++ tupleEntryStrings fields ++ ")"
  | .list elem len => "(list " ++ toString len ++ " " ++ getTypeString elem ++ ")"
termination_by t => sizeOf t

/-- Embeds the field printer of `getTypeString` for tuples (contract-abi.ts
line 187): map each declared field to `(name typeString)` and join the
results with single spaces. -/
def tupleEntryStrings : List (String × ClarityAbiType) → String
  | [] => ""
  | [(name, t)] => "(" ++ name ++ " " ++ getTypeString t ++ ")"
  | (name, t) :: rest => "(" ++ name ++ " " ++ getTypeString t ++ ")" ++ " " ++ tupleEntryStrings rest
termination_by fields => sizeOf fields

end

mutual

/-- Modelled from the spec: `getCVTypeString` of src/clarity (imported by
contract-abi.ts line 14 but not included under src/) prints the Clarity
type string of a runtime value. The spec fixes the strings for integer
values — section 8 expects `ArgumentTypeMismatch(index=0, expected="uint",
actual="int")` — and the remaining variants follow the same type-string
conventions as `getTypeString`. -/
def getCVTypeString : ClarityValue → String
  | .boolTrue => "bool"
  | .boolFalse => "bool"
  | .int _ => "int"
  | .uint _ => "uint"
  | .buffer bytes => "(buff " ++ toString bytes.length ++ ")"
  | .optionalNone => "(optional none)"
  | .optionalSome v => "(optional " ++ getCVTypeString v ++ ")"
  | .responseErr v => "(response ? " ++ getCVTypeString v ++ ")"
  | .responseOk v => "(response " ++ getCVTypeString v ++ " ?)"
  | .principalStandard _ => "principal"
  | .principalContract _ _ => "principal"
  | .list values => "(list " ++ toString values.length ++ " " ++ cvListElemTypeString values ++ ")"
  | .tuple data => "(tuple " ++ cvTupleEntryStrings data ++ ")"
termination_by cv => sizeOf cv

/-- Modelled from the spec: the element-type string a value list prints —
the type of the first element of the homogeneous list, if any. -/
def cvListElemTypeString : List ClarityValue → String
  | [] => "?"
  | v :: _ => getCVTypeString v
termination_by values => sizeOf values

/-- Modelled from the spec: the field printer matching `getTypeString`
conventions for tuple values. -/
def cvTupleEntryStrings : List (String × ClarityValue) → String
  | [] => ""
  | [(name, v)] => "(" ++ name ++ " " ++ getCVTypeString v ++ ")"
  | (name, v) :: rest => "(" ++ name ++ " " ++ getCVTypeString v ++ ")" ++ " " ++ cvTupleEntryStrings rest
termination_by data => sizeOf data

end

/-- Modelled from the spec: `uintCV` of src/clarity (not included under
src/) builds an unsigned 128-bit integer value from a decimal string. The
claims settled here never depend on the parsed numeral, so the parse is the
standard decimal reading with a zero fallback. -/
def uintCV (val : String) : ClarityValue :=
  ClarityValue.uint (val.toNat?.getD 0)

/-- Modelled from the spec: `intCV` of src/clarity (not included under
src/) builds a signed 128-bit integer value from a decimal string. -/
def intCV (val : String) : ClarityValue :=
  ClarityValue.int (val.toInt?.getD 0)

/-- Modelled from the spec: `Buffer.from(val, "utf8")` — the UTF-8 bytes of
a string, as consumed by `bufferCV` (contract-abi.ts line 157). -/
def stringToBytes (val : String) : List Nat :=
  val.toUTF8.toList.map (fun b => b.toNat)

/-- Errors raised by `encodeClarityValue` (contract-abi.ts lines 126-169):
`notImplemented` embeds the `NotImplementedError` thrown for composite
types — the spec names it `UnsupportedAbiEncoding` — carrying the numeric
type id of the offending `union.id`; `invalidBoolValue` embeds the plain
error thrown for a boolean string that is none of `false`, `0`, `true`,
`1`. -/
inductive EncodeError where
  | notImplemented (typeId : Nat) : EncodeError
  | invalidBoolValue (val : String) : EncodeError

/-- Embeds `encodeClarityValue` (contract-abi.ts lines 126-169): coerce a
plain string to a Clarity value of the declared ABI type. Primitive and
buffer shapes produce a value; the composite shapes (response, optional,
tuple, list) throw `NotImplementedError`. A principal string containing a
dot is split into address and contract name (contract-abi.ts lines
148-150). -/
def encodeClarityValue (input : ClarityAbiType) (val : String) : Except EncodeError ClarityValue :=
  match input with
  | .uint128 => .ok (uintCV val)
  | .int128 => .ok (intCV val)
  | .bool =>
    if val == "false" || val == "0" then .ok ClarityValue.boolFalse
    else if val == "true" || val == "1" then .ok ClarityValue.boolTrue
    else .error (.invalidBoolValue val)
  | .principal =>
    if val.contains '.' then
      match val.splitOn "." with
      | addr :: name :: _ => .ok (ClarityValue.principalContract addr name)
      | _ => .ok (ClarityValue.principalStandard val)
    else .ok (ClarityValue.principalStandard val)
  | .none => .ok ClarityValue.optionalNone
  | .buffer _ => .ok (ClarityValue.buffer (stringToBytes val))
  | .response _ _ => .error (.notImplemented (typeIdOf input))
  | .optional _ => .error (.notImplemented (typeIdOf input))
  | .tuple _ => .error (.notImplemented (typeIdOf input))
  | .list _ _ => .error (.notImplemented (typeIdOf input))

/-- Embeds the access level of `ClarityAbiFunction` (contract-abi.ts line
197); `private` and `public` are Lean keywords, hence the suffixed names. -/
inductive ClarityAbiAccess where
  | privateAccess : ClarityAbiAccess
  | publicAccess : ClarityAbiAccess
  | readOnly : ClarityAbiAccess

/-- Embeds a named, typed function argument of `ClarityAbiFunction.args`
(contract-abi.ts lines 198-201). -/
structure ClarityAbiArg where
  name : String
  type : ClarityAbiType

/-- Embeds the output declaration of `ClarityAbiFunction` (contract-abi.ts
lines 202-204). -/
structure ClarityAbiOutput where
  type : ClarityAbiType

/-- Embeds `ClarityAbiFunction` (contract-abi.ts lines 195-205). -/
structure ClarityAbiFunction where
  name : String
  access : ClarityAbiAccess
  args : List ClarityAbiArg
  outputs : ClarityAbiOutput

/-- Embeds the access level of `ClarityAbiVariable` (contract-abi.ts line
216); `variable` and `constant` are Lean keywords, hence the suffixed
names. -/
inductive ClarityAbiVariableAccess where
  | variableAccess : ClarityAbiVariableAccess
  | constantAccess : ClarityAbiVariableAccess

/-- Embeds `ClarityAbiVariable` (contract-abi.ts lines 214-218). -/
structure ClarityAbiVariable where
  name : String
  access : ClarityAbiVariableAccess
  type : ClarityAbiType

/-- Embeds `ClarityAbiMap` (contract-abi.ts lines 220-230). -/
structure ClarityAbiMap where
  name : String
  key : List ClarityAbiArg
  value : List ClarityAbiArg

/-- Embeds `ClarityAbiTypeFungibleToken` (contract-abi.ts lines 232-234). -/
structure ClarityAbiTypeFungibleToken where
  name : String

/-- Embeds `ClarityAbiTypeNonFungibleToken` (contract-abi.ts lines
236-239). -/
structure ClarityAbiTypeNonFungibleToken where
  name : String
  type : ClarityAbiType

/-- Embeds `ClarityAbi` (contract-abi.ts lines 241-247); the source field
`variables` is a reserved token in Lean 4 and is renamed `vars`. -/
structure ClarityAbi where
  functions : List ClarityAbiFunction
  vars : List ClarityAbiVariable
  maps : List ClarityAbiMap
  fungible_tokens : List ClarityAbiTypeFungibleToken
  non_fungible_tokens : List ClarityAbiTypeNonFungibleToken

/-- Modelled from the spec: the length-prefixed string wrapper of src/types
(not included under src/); `payload.functionName.content` reads the wrapped
string (contract-abi.ts line 329). -/
structure LengthPrefixedString where
  content : String

/-- Modelled from the spec: the contract-call payload of src/payload (not
included under src/), section 3 — contract address, contract name, function
name, and the sequence of Clarity value arguments. `validateContractCall`
reads `functionName.content` and `functionArgs`. -/
structure ContractCallPayload where
  contractAddress : String
  contractName : LengthPrefixedString
  functionName : LengthPrefixedString
  functionArgs : List ClarityValue

/-- The errors `validateContractCall` raises (contract-abi.ts lines
334-359), under the names the spec gives them in sections 4.5 and 7. Each
constructor carries the structured context the thrown message interpolates:
the declared and received argument counts, the zero-based index of the
first failing argument with the expected and actual type strings, or the
function name that resolved to zero or to several ABI entries. -/
inductive AbiError where
  | argumentCountMismatch (expected received : Nat) : AbiError
  | argumentTypeMismatch (index : Nat) (expected actual : String) : AbiError
  | functionNotFound (name : String) : AbiError
  | ambiguousAbi (name : String) : AbiError

/-- Embeds the argument loop of `validateContractCall` (contract-abi.ts
lines 340-350): walk the supplied arguments and the declared arguments in
lockstep, carrying the loop index; the first argument failing `matchType`
raises `ArgumentTypeMismatch` with the declared type string and the
value's type string, and a completed loop returns true. -/
def validateArgsFrom (args : List ClarityValue) (abiArgs : List ClarityAbiArg) (i : Nat) : Except AbiError Bool :=
  match args, abiArgs with
  | [], _ => .ok true
  | _, [] => .ok true
  | arg :: restArgs, abiArg :: restAbi =>
    if matchType arg abiArg.type then validateArgsFrom restArgs restAbi (i + 1)
    else .error (.argumentTypeMismatch i (getTypeString abiArg.type) (getCVTypeString arg))

/-- Embeds `validateContractCall` (contract-abi.ts lines 328-360): filter
the ABI functions by the called name; exactly one match proceeds to the
argument-count check and then the positional argument loop, zero matches
raise `FunctionNotFound`, several matches raise `AmbiguousAbi`. -/
def validateContractCall (payload : ContractCallPayload) (abi : ClarityAbi) : Except AbiError Bool :=
  match abi.functions.filter (fun fn => fn.name == payload.functionName.content) with
  | [abiFunc] =>
    if payload.functionArgs.length != abiFunc.args.length then
      .error (.argumentCountMismatch abiFunc.args.length payload.functionArgs.length)
    else
      validateArgsFrom payload.functionArgs abiFunc.args 0
  | [] => .error (.functionNotFound payload.functionName.content)
  | _ => .error (.ambiguousAbi payload.functionName.content)

/-- Modelled from the spec: the `PayloadType` discriminators of
src/constants (imported by the builders file but not included under src/);
section 3 lists the payload variants token-transfer, program-deploy,
program-call. -/
inductive PayloadType where
  | tokenTransfer : PayloadType
  | smartContract : PayloadType
  | contractCall : PayloadType
  deriving DecidableEq

/-- Modelled from the spec: the `AnchorMode` flag of src/constants (not
included under src/) — how the transaction is eligible for block
production; `AnchorMode.Any` is the builders' default. -/
inductive AnchorMode where
  | onChainOnly : AnchorMode
  | offChainOnly : AnchorMode
  | any : AnchorMode
  deriving DecidableEq

/-- Modelled from the spec: the `PostConditionMode` flag of src/constants
(not included under src/); `Deny` is the builders' default. -/
inductive PostConditionMode where
  | allow : PostConditionMode
  | deny : PostConditionMode
  deriving DecidableEq

/-- Modelled from the spec, section 3: the three post-condition variants of
src/postcondition (not included under src/). Their internal encoding plays
no role in the claims settled here; the constructors carry the fields the
spec names. -/
inductive PostCondition where
  | stxCondition (principal : String) (conditionCode : Nat) (amount : Nat) : PostCondition
  | fungibleCondition (principal : String) (conditionCode : Nat) (amount : Nat) (asset : String) : PostCondition
  | nonFungibleCondition (principal : String) (conditionCode : Nat) (asset : String) (assetName : String) : PostCondition

/-- Modelled from the spec, section 3: the payload union of src/payload
(not included under src/) as built by `createTokenTransferPayload`,
`createSmartContractPayload` and `createContractCallPayload`. -/
inductive Payload where
  | tokenTransfer (recipient : String) (amount : Nat) (memo : String) : Payload
  | smartContract (contractName codeBody : String) : Payload
  | contractCall (call : ContractCallPayload) : Payload

/-- The `payloadType` discriminator each payload carries (read by the fee
estimators at part_002 lines 72, 234 and 367). -/
def Payload.payloadType : Payload → PayloadType
  | .tokenTransfer _ _ _ => .tokenTransfer
  | .smartContract _ _ => .smartContract
  | .contractCall _ => .contractCall

/-- Modelled from the spec: `SingleSigSpendingCondition` of
src/authorization (not included under src/), section 3 — hash mode, signer
public key, nonce and fee, with signature material empty until the signer
fills it. -/
structure SingleSigSpendingCondition where
  addressHashMode : Nat
  signerPubKey : String
  nonce : Nat
  fee : Nat
  signature : Option String := Option.none

/-- Modelled from the spec: `StandardAuthorization` of src/authorization
(not included under src/) wraps one spending condition. -/
structure StandardAuthorization where
  spendingCondition : SingleSigSpendingCondition

/-- Modelled from the spec: the `StacksTransaction` envelope of
src/transaction (not included under src/), section 3, with the fields the
builders pass to its constructor (part_002 lines 166-174, 301-309,
445-453): version, authorization, payload, post-conditions,
post-condition mode, anchor mode, chain id. -/
structure StacksTransaction where
  version : Nat
  auth : StandardAuthorization
  payload : Payload
  postConditions : List PostCondition
  postConditionMode : PostConditionMode
  anchorMode : AnchorMode
  chainId : Nat

/-- Modelled from the spec: `transaction.setFee` (src/transaction, not
included under src/) updates the spending condition's fee and nothing
else. -/
def StacksTransaction.setFee (tx : StacksTransaction) (fee : Nat) : StacksTransaction :=
  { tx with auth := { spendingCondition := { tx.auth.spendingCondition with fee := fee } } }

/-- Modelled from the spec: key derivation
(`getPublicKey(createStacksPrivateKey(senderKey))`, src/keys, not included
under src/) is an external crypto collaborator (spec section 1, out of
scope); only the data flow from sender key to recorded public key matters
to the claims settled here. -/
def publicKeyFromPrivate (senderKey : String) : String :=
  "pub:" ++ senderKey

/-- Modelled from the spec: `TransactionSigner.signOrigin` (src/signer, not
included under src/) computes and injects signature material into the
spending condition and changes no other envelope field (spec sections 2 and
4.3); the signature bytes are an external crypto result, represented
abstractly from the signing key. -/
def signOrigin (senderKey : String) (tx : StacksTransaction) : StacksTransaction :=
  { tx with auth := { spendingCondition := { tx.auth.spendingCondition with signature := some ("sig:" ++ senderKey) } } }

/-- Modelled from the spec: `DEFAULT_CORE_NODE_API_URL` of src/constants
(not included under src/); the concrete host plays no role in the claims
settled here. -/
def DEFAULT_CORE_NODE_API_URL : String := "https://core.blockstack.org"

/-- Embeds `DEFAULT_FEE_ESTIMATE_API_URL` (part_002 line 52). -/
def DEFAULT_FEE_ESTIMATE_API_URL : String := DEFAULT_CORE_NODE_API_URL ++ "/v2/fees/transfer"

/-- Modelled from the spec: `DEFAULT_TRANSACTION_VERSION` of src/constants
(not included under src/). -/
def DEFAULT_TRANSACTION_VERSION : Nat := 0

/-- Modelled from the spec: `DEFAULT_CHAIN_ID` of src/constants (not
included under src/). -/
def DEFAULT_CHAIN_ID : Nat := 1

/-- Embeds `estimateTransfer` (part_002 lines 62-85). The payload-type
check precedes the fetch, so a transaction whose payload is not a token
transfer yields the error without a fetch request ever being formed; for a
token transfer the result is the URL the function proceeds to fetch
(`apiUrl` or the default transfer-fee endpoint). -/
def estimateTransfer (transaction : StacksTransaction) (apiUrl : Option String) : Except String String :=
  if transaction.payload.payloadType != PayloadType.tokenTransfer then
    .error "Transaction is not a token transfer"
  else
    .ok (apiUrl.getD (DEFAULT_CORE_NODE_API_URL ++ "/v2/fees/transfer"))

/-- Embeds `estimateContractDeploy` (part_002 lines 221-249): identical
body to `estimateTransfer`, including the check that the payload is a token
transfer — thrown before any fetch. -/
def estimateContractDeploy (transaction : StacksTransaction) (apiUrl : Option String) : Except String String :=
  if transaction.payload.payloadType != PayloadType.tokenTransfer then
    .error "Transaction is not a token transfer"
  else
    .ok (apiUrl.getD (DEFAULT_CORE_NODE_API_URL ++ "/v2/fees/transfer"))

/-- Embeds `estimateContractFunctionCall` (part_002 lines 354-382):
identical body to `estimateTransfer`, including the check that the payload
is a token transfer — thrown before any fetch. -/
def estimateContractFunctionCall (transaction : StacksTransaction) (apiUrl : Option String) : Except String String :=
  if transaction.payload.payloadType != PayloadType.tokenTransfer then
    .error "Transaction is not a token transfer"
  else
    .ok (apiUrl.getD (DEFAULT_CORE_NODE_API_URL ++ "/v2/fees/transfer"))

/-- Embeds `TokenTransferOptions` (part_002 lines 102-112): every field is
optional on the caller side. -/
structure TokenTransferOptions where
  fee : Option Nat := Option.none
  feeEstimateApiUrl : Option String := Option.none
  nonce : Option Nat := Option.none
  version : Option Nat := Option.none
  chainId : Option Nat := Option.none
  anchorMode : Option AnchorMode := Option.none
  memo : Option String := Option.none
  postConditionMode : Option PostConditionMode := Option.none
  postConditions : Option (List PostCondition) := Option.none

/-- Embeds `ContractDeployOptions` (part_002 lines 202-211) and
`ContractCallOptions` (part_002 lines 335-344), which declare the same
fields. -/
structure ContractDeployOptions where
  fee : Option Nat := Option.none
  feeEstimateApiUrl : Option String := Option.none
  nonce : Option Nat := Option.none
  version : Option Nat := Option.none
  chainId : Option Nat := Option.none
  anchorMode : Option AnchorMode := Option.none
  postConditionMode : Option PostConditionMode := Option.none
  postConditions : Option (List PostCondition) := Option.none

/-- Embeds the transaction construction of `makeSTXTokenTransfer` (part_002
lines 132-174). `Object.assign(defaultOptions, options)` copies every
property the caller supplied onto `defaultOptions` and mutates it in
place, so after the merge `defaultOptions` and `normalizedOptions` are the
same record; in particular the `defaultOptions.anchorMode` passed to the
`StacksTransaction` constructor at line 172 is the merged anchor mode —
the caller's value when supplied, `AnchorMode.Any` otherwise. -/
def makeSTXTokenTransferTx (recipient : String) (amount : Nat) (senderKey : String)
    (options : TokenTransferOptions) : StacksTransaction :=
  let payload := Payload.tokenTransfer recipient amount ((options.memo).getD "")
  let spendingCondition : SingleSigSpendingCondition :=
    { addressHashMode := 0
      signerPubKey := publicKeyFromPrivate senderKey
      nonce := (options.nonce).getD 0
      fee := (options.fee).getD 0 }
  { version := (options.version).getD DEFAULT_TRANSACTION_VERSION
    auth := { spendingCondition := spendingCondition }
    payload := payload
    postConditions := (options.postConditions).getD []
    postConditionMode := (options.postConditionMode).getD PostConditionMode.deny
    anchorMode := (options.anchorMode).getD AnchorMode.any
    chainId := (options.chainId).getD DEFAULT_CHAIN_ID }

/-- Embeds `makeSTXTokenTransfer` (part_002 lines 126-187): construct the
transaction, estimate and set the fee when the caller supplied none, then
sign when a sender key is present. The fee the fetch would return is
external network data and enters as the `networkFee` parameter. -/
def makeSTXTokenTransfer (recipient : String) (amount : Nat) (senderKey : String)
    (options : TokenTransferOptions) (networkFee : Nat) : Except String StacksTransaction :=
  let transaction := makeSTXTokenTransferTx recipient amount senderKey options
  let afterFee : Except String StacksTransaction :=
    if (options.fee).isNone then
      match estimateTransfer transaction (some ((options.feeEstimateApiUrl).getD DEFAULT_FEE_ESTIMATE_API_URL)) with
      | .error e => .error e
      | .ok _ => .ok (transaction.setFee networkFee)
    else .ok transaction
  afterFee.map (fun tx => if senderKey == "" then tx else signOrigin senderKey tx)

/-- Embeds the transaction construction of `makeSmartContractDeploy`
(part_002 lines 268-309); line 307 passes `normalizedOptions.anchorMode`. -/
def makeSmartContractDeployTx (contractName codeBody senderKey : String)
    (options : ContractDeployOptions) : StacksTransaction :=
  let payload := Payload.smartContract contractName codeBody
  let spendingCondition : SingleSigSpendingCondition :=
    { addressHashMode := 0
      signerPubKey := publicKeyFromPrivate senderKey
      nonce := (options.nonce).getD 0
      fee := (options.fee).getD 0 }
  { version := (options.version).getD DEFAULT_TRANSACTION_VERSION
    auth := { spendingCondition := spendingCondition }
    payload := payload
    postConditions := (options.postConditions).getD []
    postConditionMode := (options.postConditionMode).getD PostConditionMode.deny
    anchorMode := (options.anchorMode).getD AnchorMode.any
    chainId := (options.chainId).getD DEFAULT_CHAIN_ID }

/-- Embeds `makeSmartContractDeploy` (part_002 lines 262-320): construct
the transaction, call `estimateContractDeploy` when the caller supplied no
fee — whose payload-type check then throws, rejecting the returned promise
— and otherwise sign and return. -/
def makeSmartContractDeploy (contractName codeBody senderKey : String)
    (options : ContractDeployOptions) (networkFee : Nat) : Except String StacksTransaction :=
  let transaction := makeSmartContractDeployTx contractName codeBody senderKey options
  let afterFee : Except String StacksTransaction :=
    if (options.fee).isNone then
      match estimateContractDeploy transaction (some ((options.feeEstimateApiUrl).getD DEFAULT_FEE_ESTIMATE_API_URL)) with
      | .error e => .error e
      | .ok _ => .ok (transaction.setFee networkFee)
    else .ok transaction
  afterFee.map (fun tx => signOrigin senderKey tx)

/-- Embeds the transaction construction of `makeContractCall` (part_002
lines 407-453); line 451 passes `normalizedOptions.anchorMode`. -/
def makeContractCallTx (contractAddress contractName functionName : String)
    (functionArgs : List ClarityValue) (senderKey : String)
    (options : ContractDeployOptions) : StacksTransaction :=
  let payload := Payload.contractCall
    { contractAddress := contractAddress
      contractName := { content := contractName }
      functionName := { content := functionName }
      functionArgs := functionArgs }
  let spendingCondition : SingleSigSpendingCondition :=
    { addressHashMode := 0
      signerPubKey := publicKeyFromPrivate senderKey
      nonce := (options.nonce).getD 0
      fee := (options.fee).getD 0 }
  { version := (options.version).getD DEFAULT_TRANSACTION_VERSION
    auth := { spendingCondition := spendingCondition }
    payload := payload
    postConditions := (options.postConditions).getD []
    postConditionMode := (options.postConditionMode).getD PostConditionMode.deny
    anchorMode := (options.anchorMode).getD AnchorMode.any
    chainId := (options.chainId).getD DEFAULT_CHAIN_ID }

/-- Embeds `makeContractCall` (part_002 lines 399-467): construct the
transaction, call `estimateContractFunctionCall` when the caller supplied
no fee — whose payload-type check then throws, rejecting the returned
promise — and otherwise sign and return. -/
def makeContractCall (contractAddress contractName functionName : String)
    (functionArgs : List ClarityValue) (senderKey : String)
    (options : ContractDeployOptions) (networkFee : Nat) : Except String StacksTransaction :=
  let transaction := makeContractCallTx contractAddress contractName functionName functionArgs senderKey options
  let afterFee : Except String StacksTransaction :=
    if (options.fee).isNone then
      match estimateContractFunctionCall transaction (some ((options.feeEstimateApiUrl).getD DEFAULT_FEE_ESTIMATE_API_URL)) with
      | .error e => .error e
      | .ok _ => .ok (transaction.setFee networkFee)
    else .ok transaction
  afterFee.map (fun tx => signOrigin senderKey tx)

/-! Unfolding lemmas for the well-founded recursive `matchType`. -/

@[simp] lemma matchType_boolTrue_bool : matchType ClarityValue.boolTrue ClarityAbiType.bool = true := by
  simp [matchType]

@[simp] lemma matchType_boolFalse_bool : matchType ClarityValue.boolFalse ClarityAbiType.bool = true := by
  simp [matchType]

@[simp] lemma matchType_int_int128 (n : Int) : matchType (ClarityValue.int n) ClarityAbiType.int128 = true := by
  simp [matchType]

@[simp] lemma matchType_uint_uint128 (n : Nat) : matchType (ClarityValue.uint n) ClarityAbiType.uint128 = true := by
  simp [matchType]

@[simp] lemma matchType_int_uint128 (n : Int) : matchType (ClarityValue.int n) ClarityAbiType.uint128 = false := by
  simp [matchType]

@[simp] lemma matchType_buffer_buffer (bytes : List Nat) (len : Nat) :
    matchType (ClarityValue.buffer bytes) (ClarityAbiType.buffer len) = (len == bytes.length) := by
  rw [matchType]

@[simp] lemma matchType_optionalNone_none : matchType ClarityValue.optionalNone ClarityAbiType.none = true := by
  simp [matchType]

@[simp] lemma matchType_optionalNone_optional (t : ClarityAbiType) :
    matchType ClarityValue.optionalNone (ClarityAbiType.optional t) = true := by
  simp [matchType]

@[simp] lemma matchType_optionalSome_optional (v : ClarityValue) (t : ClarityAbiType) :
    matchType (ClarityValue.optionalSome v) (ClarityAbiType.optional t) = matchType v t := by
  rw [matchType]

@[simp] lemma matchType_list_list (values : List ClarityValue) (elem : ClarityAbiType) (len : Nat) :
    matchType (ClarityValue.list values) (ClarityAbiType.list elem len)
      = (len == values.length && matchAllElems values elem) := by
  rw [matchType]

@[simp] lemma matchType_tuple_tuple (data : List (String × ClarityValue)) (fields : List (String × ClarityAbiType)) :
    matchType (ClarityValue.tuple data) (ClarityAbiType.tuple fields) = matchTupleEntries fields data := by
  rw [matchType]

lemma matchAllElems_eq_true_iff (values : List ClarityValue) (elem : ClarityAbiType) :
    matchAllElems values elem = true ↔ ∀ v ∈ values, matchType v elem = true := by
  induction values with
  | nil => simp [matchAllElems]
  | cons v rest ih => simp [matchAllElems, ih]

/-- C2: for every list value and declared list ABI type, `matchType` returns
true iff the declared list length equals the number of elements in the list
value and every element of the list value matches the declared element type
(recursively). -/
theorem c2_list_match (values : List ClarityValue) (elem : ClarityAbiType) (len : Nat) :
    matchType (ClarityValue.list values) (ClarityAbiType.list elem len) = true ↔
      len = values.length ∧ ∀ v ∈ values, matchType v elem = true := by
  rw [matchType_list_list]
  simp [matchAllElems_eq_true_iff]

/-- C3: for every buffer value and declared buffer ABI type, `matchType`
returns true iff the declared buffer length equals the actual byte length of
the value's buffer; any difference in length makes it return false. -/
theorem c3_buffer_match (bytes : List Nat) (len : Nat) :
    matchType (ClarityValue.buffer bytes) (ClarityAbiType.buffer len) = true ↔ len = bytes.length := by
  simp

/-- C10: `OptionalNone` matches both the primitive `none` type and every
optional type regardless of the inner type, while `OptionalSome v` matches
exactly the optional types whose inner type matches `v`. -/
theorem c10_optional_match :
    (∀ t : ClarityAbiType, matchType ClarityValue.optionalNone (ClarityAbiType.optional t) = true)
    ∧ matchType ClarityValue.optionalNone ClarityAbiType.none = true
    ∧ ∀ (v : ClarityValue) (t : ClarityAbiType),
        matchType (ClarityValue.optionalSome v) t = true ↔
          ∃ inner, t = ClarityAbiType.optional inner ∧ matchType v inner = true := by
  refine ⟨fun t => by simp, by simp, fun v t => ?_⟩
  cases t <;> simp [matchType]

lemma lookupEntry_eraseEntry_ne (k n : String) (h : k ≠ n) :
    ∀ data : List (String × ClarityValue), lookupEntry k (eraseEntry n data) = lookupEntry k data := by
  intro data
  induction data with
  | nil => rfl
  | cons p rest ih =>
    obtain ⟨k2, v⟩ := p
    by_cases h2 : k2 = n
    · subst h2
      have hk : (k2 == k) = false := beq_eq_false_iff_ne.mpr (fun he => h (he ▸ rfl))
      simp [eraseEntry, lookupEntry, hk, ih]
    · have hk : (k2 == n) = false := beq_eq_false_iff_ne.mpr h2
      simp [eraseEntry, lookupEntry, hk, ih]

lemma matchTupleEntries_eq_true_iff (fields : List (String × ClarityAbiType)) :
    ∀ data : List (String × ClarityValue), (fields.map Prod.fst).Nodup →
      (matchTupleEntries fields data = true ↔
        ∀ p ∈ fields, ∃ v, lookupEntry p.1 data = some v ∧ matchType v p.2 = true) := by
  induction fields with
  | nil => intro data _; simp [matchTupleEntries]
  | cons q rest ih =>
    intro data hf
    obtain ⟨name, fieldType⟩ := q
    simp only [List.map_cons, List.nodup_cons] at hf
    obtain ⟨hnotin, hnodup⟩ := hf
    rw [matchTupleEntries]
    cases hl : lookupEntry name data with
    | none =>
      simp only [reduceCtorEq, false_iff, not_forall]
      refine ⟨(name, fieldType), List.mem_cons_self _ _, ?_⟩
      rintro ⟨v, hv, -⟩
      rw [hl] at hv
      cases hv
    | some v =>
      by_cases hm : matchType v fieldType = true
      · simp only [hm, if_true]
        rw [ih (eraseEntry name data) hnodup]
        constructor
        · intro h p hp
          rcases List.mem_cons.mp hp with he | hp2
          · subst he
            exact ⟨v, hl, hm⟩
          · obtain ⟨w, hw, hwm⟩ := h p hp2
            have hne : p.1 ≠ name := fun heq => hnotin (heq ▸ List.mem_map_of_mem Prod.fst hp2)
            rw [lookupEntry_eraseEntry_ne p.1 name hne data] at hw
            exact ⟨w, hw, hwm⟩
        · intro h p hp
          have hne : p.1 ≠ name := fun heq => hnotin (heq ▸ List.mem_map_of_mem Prod.fst hp)
          obtain ⟨w, hw, hwm⟩ := h p (List.mem_cons_of_mem _ hp)
          rw [← lookupEntry_eraseEntry_ne p.1 name hne data] at hw
          exact ⟨w, hw, hwm⟩
      · simp only [if_neg hm, reduceCtorEq, false_iff, not_forall]
        refine ⟨(name, fieldType), List.mem_cons_self _ _, ?_⟩
        rintro ⟨w, hw, hwm⟩
        rw [hl] at hw
        cases hw
        exact hm hwm

/-- C1 (counterexample): the claim quantifies over every declared tuple ABI
type, but a declared type repeating a field name defeats the stated
biconditional — each matched field is deleted from the working copy
(contract-abi.ts line 308), so the second occurrence of the repeated name
finds nothing and `matchType` returns false even though every declared
field name is present in the tuple value and its value matches the
declared field type. -/
theorem c1_counterexample :
    matchType (ClarityValue.tuple [("a", ClarityValue.boolTrue)])
        (ClarityAbiType.tuple [("a", ClarityAbiType.bool), ("a", ClarityAbiType.bool)]) = false
    ∧ ∀ p ∈ [("a", ClarityAbiType.bool), ("a", ClarityAbiType.bool)],
        ∃ v, lookupEntry p.1 [("a", ClarityValue.boolTrue)] = some v ∧ matchType v p.2 = true := by
  constructor
  · rw [matchType_tuple_tuple, matchTupleEntries]
    simp [lookupEntry, eraseEntry, matchTupleEntries]
  · intro p hp
    rcases List.mem_cons.mp hp with he | hp2
    · subst he
      exact ⟨ClarityValue.boolTrue, by simp [lookupEntry], by simp⟩
    · rcases List.mem_cons.mp hp2 with he | hp3
      · subst he
        exact ⟨ClarityValue.boolTrue, by simp [lookupEntry], by simp⟩
      · cases hp3

/-- C1 (amended): for every tuple value and every declared tuple ABI type
whose declared field names are distinct — as in any well-formed Clarity
tuple type — `matchType` returns true iff every declared field name is
present in the tuple value and its value matches the declared field type;
fields of the tuple value not named in the declared type are unconstrained
(one-directional subset check). -/
theorem c1_tuple_subset_check (data : List (String × ClarityValue))
    (fields : List (String × ClarityAbiType)) (hf : (fields.map Prod.fst).Nodup) :
    matchType (ClarityValue.tuple data) (ClarityAbiType.tuple fields) = true ↔
      ∀ p ∈ fields, ∃ v, lookupEntry p.1 data = some v ∧ matchType v p.2 = true := by
  rw [matchType_tuple_tuple]
  exact matchTupleEntries_eq_true_iff fields data hf

/-- C1 (witness): the spec's own example — a tuple value with fields
`a`, `b`, `c` matches a declared type requiring only `a` and `b`, and a
tuple value missing declared field `b` does not match. -/
theorem c1_witness :
    matchType
        (ClarityValue.tuple [("a", ClarityValue.boolTrue), ("b", ClarityValue.boolFalse), ("c", ClarityValue.uint 1)])
        (ClarityAbiType.tuple [("a", ClarityAbiType.bool), ("b", ClarityAbiType.bool)]) = true
    ∧ matchType
        (ClarityValue.tuple [("a", ClarityValue.boolTrue), ("c", ClarityValue.uint 1)])
        (ClarityAbiType.tuple [("a", ClarityAbiType.bool), ("b", ClarityAbiType.bool)]) = false := by
  constructor
  · refine (c1_tuple_subset_check _ _ (by decide)).mpr ?_
    intro p hp
    rcases List.mem_cons.mp hp with he | hp2
    · subst he
      exact ⟨ClarityValue.boolTrue, by simp [lookupEntry], by simp⟩
    · rcases List.mem_cons.mp hp2 with he | hp3
      · subst he
        exact ⟨ClarityValue.boolFalse, by simp [lookupEntry], by simp⟩
      · cases hp3
  · refine Bool.eq_false_iff.mpr (fun htrue => ?_)
    obtain ⟨v, hv, _⟩ := (c1_tuple_subset_check _ _ (by decide)).mp htrue
      ("b", ClarityAbiType.bool) (by simp)
    simp [lookupEntry] at hv

/-! Unfolding lemmas for the type-string printers and the argument loop. -/

@[simp] lemma getTypeString_uint128 : getTypeString ClarityAbiType.uint128 = "uint" := by
  rw [getTypeString]

@[simp] lemma getTypeString_int128 : getTypeString ClarityAbiType.int128 = "int" := by
  rw [getTypeString]

@[simp] lemma getTypeString_bool : getTypeString ClarityAbiType.bool = "bool" := by
  rw [getTypeString]

@[simp] lemma getCVTypeString_int (n : Int) : getCVTypeString (ClarityValue.int n) = "int" := by
  rw [getCVTypeString]

@[simp] lemma getCVTypeString_uint (n : Nat) : getCVTypeString (ClarityValue.uint n) = "uint" := by
  rw [getCVTypeString]

@[simp] lemma validateArgsFrom_nil (abiArgs : List ClarityAbiArg) (k : Nat) :
    validateArgsFrom [] abiArgs k = .ok true := by
  cases abiArgs <;> rfl

@[simp] lemma validateArgsFrom_cons_nil (a : ClarityValue) (restArgs : List ClarityValue) (k : Nat) :
    validateArgsFrom (a :: restArgs) [] k = .ok true := rfl

lemma validateArgsFrom_cons_cons (a : ClarityValue) (restArgs : List ClarityValue)
    (b : ClarityAbiArg) (restAbi : List ClarityAbiArg) (k : Nat) :
    validateArgsFrom (a :: restArgs) (b :: restAbi) k =
      if matchType a b.type then validateArgsFrom restArgs restAbi (k + 1)
      else .error (.argumentTypeMismatch k (getTypeString b.type) (getCVTypeString a)) := rfl

/-! Characterization of the positional argument loop. -/

lemma validateArgsFrom_ok (args : List ClarityValue) :
    ∀ (abiArgs : List ClarityAbiArg) (k : Nat),
      (∀ (j : Nat) (hja : j < args.length) (hjb : j < abiArgs.length),
        matchType (args.get ⟨j, hja⟩) ((abiArgs.get ⟨j, hjb⟩).type) = true) →
      validateArgsFrom args abiArgs k = .ok true := by
  induction args with
  | nil => intro abiArgs k _; exact validateArgsFrom_nil abiArgs k
  | cons a restArgs ih =>
    intro abiArgs k h
    cases abiArgs with
    | nil => rfl
    | cons b restAbi =>
      have h0 : matchType a b.type = true := h 0 (Nat.succ_pos _) (Nat.succ_pos _)
      rw [validateArgsFrom_cons_cons, if_pos h0]
      exact ih restAbi (k + 1) (fun j hja hjb =>
        h (j + 1) (Nat.succ_lt_succ hja) (Nat.succ_lt_succ hjb))

lemma validateArgsFrom_firstFail (args : List ClarityValue) :
    ∀ (abiArgs : List ClarityAbiArg) (k i : Nat) (hia : i < args.length) (hib : i < abiArgs.length),
      matchType (args.get ⟨i, hia⟩) ((abiArgs.get ⟨i, hib⟩).type) = false →
      (∀ (j : Nat) (hja : j < args.length) (hjb : j < abiArgs.length), j < i →
        matchType (args.get ⟨j, hja⟩) ((abiArgs.get ⟨j, hjb⟩).type) = true) →
      validateArgsFrom args abiArgs k =
        .error (.argumentTypeMismatch (k + i)
          (getTypeString ((abiArgs.get ⟨i, hib⟩).type))
          (getCVTypeString (args.get ⟨i, hia⟩))) := by
  induction args with
  | nil => intro abiArgs k i hia; cases (Nat.not_lt_zero i) hia
  | cons a restArgs ih =>
    intro abiArgs k i hia hib hfail hmin
    cases abiArgs with
    | nil => cases (Nat.not_lt_zero i) hib
    | cons b restAbi =>
      cases i with
      | zero =>
        have hf : matchType a b.type = false := hfail
        rw [validateArgsFrom_cons_cons, if_neg (by rw [hf]; exact Bool.false_ne_true)]
        rfl
      | succ n =>
        have h0 : matchType a b.type = true :=
          hmin 0 (Nat.succ_pos _) (Nat.succ_pos _) (Nat.succ_pos _)
        rw [validateArgsFrom_cons_cons, if_pos h0]
        have := ih restAbi (k + 1) n (Nat.lt_of_succ_lt_succ hia) (Nat.lt_of_succ_lt_succ hib)
          hfail
          (fun j hja hjb hj => hmin (j + 1) (Nat.succ_lt_succ hja) (Nat.succ_lt_succ hjb)
            (Nat.succ_lt_succ hj))
        rw [this]
        have harith : k + 1 + n = k + (n + 1) := by omega
        rw [harith]
        rfl

lemma validateArgsFrom_shape (args : List ClarityValue) :
    ∀ (abiArgs : List ClarityAbiArg) (k : Nat),
      validateArgsFrom args abiArgs k = .ok true ∨
        ∃ j e a, validateArgsFrom args abiArgs k = .error (.argumentTypeMismatch j e a) := by
  induction args with
  | nil => intro abiArgs k; exact Or.inl (validateArgsFrom_nil abiArgs k)
  | cons a restArgs ih =>
    intro abiArgs k
    cases abiArgs with
    | nil => exact Or.inl rfl
    | cons b restAbi =>
      by_cases hm : matchType a b.type = true
      · rw [validateArgsFrom_cons_cons, if_pos hm]
        exact ih restAbi (k + 1)
      · rw [validateArgsFrom_cons_cons, if_neg hm]
        exact Or.inr ⟨k, _, _, rfl⟩

/-- C4: against an ABI in which exactly one function bears the called name
and that function expects `(uint128, bool)`, `validateContractCall` with
arguments `(UInt128 10, BoolTrue)` returns true, and with arguments
`(Int128 10, BoolTrue)` raises `ArgumentTypeMismatch` at the first argument
position with expected type string `uint` and actual type string `int`. -/
theorem c4_validate_uint_bool (addr cname fname : String) (abi : ClarityAbi)
    (f : ClarityAbiFunction)
    (hfilter : abi.functions.filter (fun fn => fn.name == fname) = [f])
    (hargs : f.args.map ClarityAbiArg.type = [ClarityAbiType.uint128, ClarityAbiType.bool]) :
    validateContractCall
        { contractAddress := addr, contractName := { content := cname },
          functionName := { content := fname },
          functionArgs := [ClarityValue.uint 10, ClarityValue.boolTrue] } abi = .ok true
    ∧ validateContractCall
        { contractAddress := addr, contractName := { content := cname },
          functionName := { content := fname },
          functionArgs := [ClarityValue.int 10, ClarityValue.boolTrue] } abi
      = .error (.argumentTypeMismatch 0 "uint" "int") := by
  obtain ⟨a0, a1, hfa, h0, h1⟩ :
      ∃ a0 a1, f.args = [a0, a1] ∧ a0.type = ClarityAbiType.uint128 ∧ a1.type = ClarityAbiType.bool := by
    cases hfa : f.args with
    | nil => rw [hfa] at hargs; simp at hargs
    | cons a0 t =>
      cases t with
      | nil => rw [hfa] at hargs; simp at hargs
      | cons a1 t2 =>
        cases t2 with
        | nil =>
          rw [hfa] at hargs
          simp only [List.map_cons, List.map_nil, List.cons.injEq, and_true] at hargs
          exact ⟨a0, a1, rfl, hargs.1, hargs.2⟩
        | cons a2 t3 => rw [hfa] at hargs; simp at hargs
  constructor
  · rw [validateContractCall]
    simp only [hfilter, hfa, List.length_cons, List.length_nil]
    rw [if_neg (by simp)]
    rw [validateArgsFrom_cons_cons, if_pos (by rw [h0]; exact matchType_uint_uint128 10)]
    rw [validateArgsFrom_cons_cons, if_pos (by rw [h1]; exact matchType_boolTrue_bool)]
    exact validateArgsFrom_nil [] 2
  · rw [validateContractCall]
    simp only [hfilter, hfa, List.length_cons, List.length_nil]
    rw [if_neg (by simp)]
    rw [validateArgsFrom_cons_cons, if_neg (by rw [h0]; simp)]
    rw [h0]
    simp

/-- C4 (witness): the theorem applied to a one-function ABI declaring
`(x uint128) (y bool)`. -/
theorem c4_witness :
    validateContractCall
        { contractAddress := "SP000", contractName := { content := "c" },
          functionName := { content := "f" },
          functionArgs := [ClarityValue.uint 10, ClarityValue.boolTrue] }
        { functions := [{ name := "f", access := ClarityAbiAccess.publicAccess,
                          args := [{ name := "x", type := ClarityAbiType.uint128 },
                                   { name := "y", type := ClarityAbiType.bool }],
                          outputs := { type := ClarityAbiType.bool } }],
          vars := [], maps := [], fungible_tokens := [], non_fungible_tokens := [] } = .ok true
    ∧ validateContractCall
        { contractAddress := "SP000", contractName := { content := "c" },
          functionName := { content := "f" },
          functionArgs := [ClarityValue.int 10, ClarityValue.boolTrue] }
        { functions := [{ name := "f", access := ClarityAbiAccess.publicAccess,
                          args := [{ name := "x", type := ClarityAbiType.uint128 },
                                   { name := "y", type := ClarityAbiType.bool }],
                          outputs := { type := ClarityAbiType.bool } }],
          vars := [], maps := [], fungible_tokens := [], non_fungible_tokens := [] }
      = .error (.argumentTypeMismatch 0 "uint" "int") :=
  c4_validate_uint_bool "SP000" "c" "f"
    { functions := [{ name := "f", access := ClarityAbiAccess.publicAccess,
                      args := [{ name := "x", type := ClarityAbiType.uint128 },
                               { name := "y", type := ClarityAbiType.bool }],
                      outputs := { type := ClarityAbiType.bool } }],
      vars := [], maps := [], fungible_tokens := [], non_fungible_tokens := [] }
    { name := "f", access := ClarityAbiAccess.publicAccess,
      args := [{ name := "x", type := ClarityAbiType.uint128 },
               { name := "y", type := ClarityAbiType.bool }],
      outputs := { type := ClarityAbiType.bool } }
    (by simp) rfl

@[simp] lemma matchType_uint_bool (n : Nat) :
    matchType (ClarityValue.uint n) ClarityAbiType.bool = false := by
  simp [matchType]

/-- C5: when exactly one ABI function bears the called name,
`validateContractCall` raises `ArgumentCountMismatch` whenever the supplied
argument count differs from the declared count; otherwise it raises
`ArgumentTypeMismatch` at the lowest index whose value fails `matchType`
against the declared type, and the outcome does not depend on any argument
after that index (fail-fast, not collect-all). -/
theorem c5_fail_fast (payload : ContractCallPayload) (abi : ClarityAbi) (f : ClarityAbiFunction)
    (hfilter : abi.functions.filter (fun fn => fn.name == payload.functionName.content) = [f]) :
    (payload.functionArgs.length ≠ f.args.length →
      validateContractCall payload abi =
        .error (.argumentCountMismatch f.args.length payload.functionArgs.length))
    ∧ (∀ (i : Nat) (hia : i < payload.functionArgs.length) (hib : i < f.args.length),
        matchType (payload.functionArgs.get ⟨i, hia⟩) ((f.args.get ⟨i, hib⟩).type) = false →
        (∀ (j : Nat) (hja : j < payload.functionArgs.length) (hjb : j < f.args.length), j < i →
          matchType (payload.functionArgs.get ⟨j, hja⟩) ((f.args.get ⟨j, hjb⟩).type) = true) →
        payload.functionArgs.length = f.args.length →
        validateContractCall payload abi =
          .error (.argumentTypeMismatch i (getTypeString ((f.args.get ⟨i, hib⟩).type))
            (getCVTypeString (payload.functionArgs.get ⟨i, hia⟩))))
    ∧ (∀ (i : Nat) (hia : i < payload.functionArgs.length) (hib : i < f.args.length),
        matchType (payload.functionArgs.get ⟨i, hia⟩) ((f.args.get ⟨i, hib⟩).type) = false →
        (∀ (j : Nat) (hja : j < payload.functionArgs.length) (hjb : j < f.args.length), j < i →
          matchType (payload.functionArgs.get ⟨j, hja⟩) ((f.args.get ⟨j, hjb⟩).type) = true) →
        payload.functionArgs.length = f.args.length →
        ∀ (args2 : List ClarityValue), args2.length = payload.functionArgs.length →
          (∀ (j : Nat) (hj2 : j < args2.length) (hj : j < payload.functionArgs.length), j ≤ i →
            args2.get ⟨j, hj2⟩ = payload.functionArgs.get ⟨j, hj⟩) →
          validateContractCall { payload with functionArgs := args2 } abi =
            .error (.argumentTypeMismatch i (getTypeString ((f.args.get ⟨i, hib⟩).type))
              (getCVTypeString (payload.functionArgs.get ⟨i, hia⟩)))) := by
  refine ⟨?_, ?_, ?_⟩
  · intro hne
    rw [validateContractCall]
    simp only [hfilter]
    rw [if_pos (bne_iff_ne.mpr hne)]
  · intro i hia hib hfail hmin hlen
    rw [validateContractCall]
    simp only [hfilter]
    rw [if_neg (by simp [hlen])]
    have := validateArgsFrom_firstFail payload.functionArgs f.args 0 i hia hib hfail hmin
    rw [Nat.zero_add] at this
    exact this
  · intro i hia hib hfail hmin hlen args2 hlen2 hagree
    rw [validateContractCall]
    simp only [hfilter]
    have hia2 : i < args2.length := by omega
    rw [if_neg (by simp; omega)]
    have hget : args2.get ⟨i, hia2⟩ = payload.functionArgs.get ⟨i, hia⟩ :=
      hagree i hia2 hia (Nat.le_refl i)
    have hfail2 : matchType (args2.get ⟨i, hia2⟩) ((f.args.get ⟨i, hib⟩).type) = false := by
      rw [hget]; exact hfail
    have hmin2 : ∀ (j : Nat) (hja : j < args2.length) (hjb : j < f.args.length), j < i →
        matchType (args2.get ⟨j, hja⟩) ((f.args.get ⟨j, hjb⟩).type) = true := by
      intro j hja hjb hj
      have hj1 : j < payload.functionArgs.length := by omega
      rw [hagree j hja hj1 (Nat.le_of_lt hj)]
      exact hmin j hj1 hjb hj
    have := validateArgsFrom_firstFail args2 f.args 0 i hia2 hib hfail2 hmin2
    rw [Nat.zero_add, hget] at this
    exact this

/-- C5 (witness): a one-function ABI declaring `(x uint128) (y bool)`,
exercised with one argument too few and then with a wrong-typed second
argument while the later-argument-independence conclusion is instantiated
with a modified tail. -/
theorem c5_witness :
    validateContractCall
        { contractAddress := "SP000", contractName := { content := "c" },
          functionName := { content := "f" }, functionArgs := [ClarityValue.uint 1] }
        { functions := [{ name := "f", access := ClarityAbiAccess.publicAccess,
                          args := [{ name := "x", type := ClarityAbiType.uint128 },
                                   { name := "y", type := ClarityAbiType.bool }],
                          outputs := { type := ClarityAbiType.bool } }],
          vars := [], maps := [], fungible_tokens := [], non_fungible_tokens := [] }
      = .error (.argumentCountMismatch 2 1)
    ∧ validateContractCall
        { contractAddress := "SP000", contractName := { content := "c" },
          functionName := { content := "f" },
          functionArgs := [ClarityValue.uint 1, ClarityValue.uint 2] }
        { functions := [{ name := "f", access := ClarityAbiAccess.publicAccess,
                          args := [{ name := "x", type := ClarityAbiType.uint128 },
                                   { name := "y", type := ClarityAbiType.bool }],
                          outputs := { type := ClarityAbiType.bool } }],
          vars := [], maps := [], fungible_tokens := [], non_fungible_tokens := [] }
      = .error (.argumentTypeMismatch 1 "bool" "uint") := by
  constructor
  · exact (c5_fail_fast
      { contractAddress := "SP000", contractName := { content := "c" },
        functionName := { content := "f" }, functionArgs := [ClarityValue.uint 1] }
      { functions := [{ name := "f", access := ClarityAbiAccess.publicAccess,
                        args := [{ name := "x", type := ClarityAbiType.uint128 },
                                 { name := "y", type := ClarityAbiType.bool }],
                        outputs := { type := ClarityAbiType.bool } }],
        vars := [], maps := [], fungible_tokens := [], non_fungible_tokens := [] }
      { name := "f", access := ClarityAbiAccess.publicAccess,
        args := [{ name := "x", type := ClarityAbiType.uint128 },
                 { name := "y", type := ClarityAbiType.bool }],
        outputs := { type := ClarityAbiType.bool } }
      (by simp)).1 (by simp)
  · have h := (c5_fail_fast
      { contractAddress := "SP000", contractName := { content := "c" },
        functionName := { content := "f" },
        functionArgs := [ClarityValue.uint 1, ClarityValue.uint 2] }
      { functions := [{ name := "f", access := ClarityAbiAccess.publicAccess,
                        args := [{ name := "x", type := ClarityAbiType.uint128 },
                                 { name := "y", type := ClarityAbiType.bool }],
                        outputs := { type := ClarityAbiType.bool } }],
        vars := [], maps := [], fungible_tokens := [], non_fungible_tokens := [] }
      { name := "f", access := ClarityAbiAccess.publicAccess,
        args := [{ name := "x", type := ClarityAbiType.uint128 },
                 { name := "y", type := ClarityAbiType.bool }],
        outputs := { type := ClarityAbiType.bool } }
      (by simp)).2.1 1 (by simp) (by simp) (by simp) ?_ (by simp)
    · simpa using h
    · intro j hja hjb hj
      have hj0 : j = 0 := by omega
      subst hj0
      simp

/-- C6: function resolution inside `validateContractCall` raises
`FunctionNotFound` when zero ABI functions bear the called name and
`AmbiguousAbi` when more than one does; with exactly one match the result
is never one of those two errors — validation proceeds. -/
theorem c6_function_resolution (payload : ContractCallPayload) (abi : ClarityAbi) :
    ((abi.functions.filter (fun fn => fn.name == payload.functionName.content)).length = 0 →
      validateContractCall payload abi = .error (.functionNotFound payload.functionName.content))
    ∧ (1 < (abi.functions.filter (fun fn => fn.name == payload.functionName.content)).length →
      validateContractCall payload abi = .error (.ambiguousAbi payload.functionName.content))
    ∧ ((abi.functions.filter (fun fn => fn.name == payload.functionName.content)).length = 1 →
      ∀ s, validateContractCall payload abi ≠ .error (.functionNotFound s)
        ∧ validateContractCall payload abi ≠ .error (.ambiguousAbi s)) := by
  refine ⟨?_, ?_, ?_⟩
  · intro h0
    rw [List.length_eq_zero] at h0
    rw [validateContractCall]
    simp only [h0]
  · intro h1
    rw [validateContractCall]
    cases hflt : abi.functions.filter (fun fn => fn.name == payload.functionName.content) with
    | nil => rw [hflt] at h1; simp at h1
    | cons g rest =>
      cases rest with
      | nil => rw [hflt] at h1; simp at h1
      | cons g2 rest2 => simp only []
  · intro h1 s
    rw [List.length_eq_one] at h1
    obtain ⟨g, hg⟩ := h1
    rw [validateContractCall]
    simp only [hg]
    by_cases hc : (payload.functionArgs.length != g.args.length) = true
    · rw [if_pos hc]
      exact ⟨by simp, by simp⟩
    · rw [if_neg hc]
      rcases validateArgsFrom_shape payload.functionArgs g.args 0 with hv | ⟨j, e, a, hv⟩ <;>
        rw [hv] <;> exact ⟨by simp, by simp⟩

/-- C6 (witness): the theorem applied to an ABI with no function named `f`
and to a malformed ABI carrying two functions named `f`. -/
theorem c6_witness :
    validateContractCall
        { contractAddress := "SP000", contractName := { content := "c" },
          functionName := { content := "f" }, functionArgs := [] }
        { functions := [], vars := [], maps := [], fungible_tokens := [], non_fungible_tokens := [] }
      = .error (.functionNotFound "f")
    ∧ validateContractCall
        { contractAddress := "SP000", contractName := { content := "c" },
          functionName := { content := "f" }, functionArgs := [] }
        { functions := [{ name := "f", access := ClarityAbiAccess.publicAccess, args := [],
                          outputs := { type := ClarityAbiType.bool } },
                        { name := "f", access := ClarityAbiAccess.readOnly, args := [],
                          outputs := { type := ClarityAbiType.bool } }],
          vars := [], maps := [], fungible_tokens := [], non_fungible_tokens := [] }
      = .error (.ambiguousAbi "f") :=
  ⟨(c6_function_resolution _ _).1 (by simp),
   (c6_function_resolution _ _).2.1 (by simp)⟩

/-- C7: for every input string, `encodeClarityValue` raises the
not-implemented error (the spec's `UnsupportedAbiEncoding`) when the
declared ABI type is a response, optional, tuple or list type, and a
successful coercion can only arise from a primitive or buffer type
shape. -/
theorem c7_unsupported_encoding (t : ClarityAbiType) (val : String) :
    ((isClarityAbiResponse t || isClarityAbiOptional t || isClarityAbiTuple t || isClarityAbiList t) = true →
      encodeClarityValue t val = .error (.notImplemented (typeIdOf t)))
    ∧ (∀ v, encodeClarityValue t val = .ok v →
      (isClarityAbiPrimitive t || isClarityAbiBuffer t) = true) := by
  cases t <;>
    simp [encodeClarityValue, isClarityAbiResponse, isClarityAbiOptional, isClarityAbiTuple,
      isClarityAbiList, isClarityAbiPrimitive, isClarityAbiBuffer, typeIdOf]

/-- C7 (witness): the theorem applied to the optional, response, tuple and
list shapes at a concrete string. -/
theorem c7_witness :
    encodeClarityValue (ClarityAbiType.optional ClarityAbiType.bool) "x" = .error (.notImplemented 8)
    ∧ encodeClarityValue (ClarityAbiType.response ClarityAbiType.bool ClarityAbiType.bool) "x"
        = .error (.notImplemented 7)
    ∧ encodeClarityValue (ClarityAbiType.tuple []) "x" = .error (.notImplemented 9)
    ∧ encodeClarityValue (ClarityAbiType.list ClarityAbiType.bool 3) "x" = .error (.notImplemented 10) :=
  ⟨(c7_unsupported_encoding (ClarityAbiType.optional ClarityAbiType.bool) "x").1 rfl,
   (c7_unsupported_encoding (ClarityAbiType.response ClarityAbiType.bool ClarityAbiType.bool) "x").1 rfl,
   (c7_unsupported_encoding (ClarityAbiType.tuple []) "x").1 rfl,
   (c7_unsupported_encoding (ClarityAbiType.list ClarityAbiType.bool 3) "x").1 rfl⟩

/-- C8: the fee estimators for contract deploys and contract calls check
the payload type against `TokenTransfer` first and throw
`Transaction is not a token transfer` for every other payload — the error
is produced instead of a fetch request. Consequently
`makeSmartContractDeploy` and `makeContractCall` invoked without an
explicit fee always reach that throwing branch, since their payloads are
contract-deploy and contract-call payloads. -/
theorem c8_estimate_requires_token_transfer :
    (∀ (tx : StacksTransaction) (apiUrl : Option String),
      tx.payload.payloadType ≠ PayloadType.tokenTransfer →
      estimateContractDeploy tx apiUrl = .error "Transaction is not a token transfer")
    ∧ (∀ (tx : StacksTransaction) (apiUrl : Option String),
      tx.payload.payloadType ≠ PayloadType.tokenTransfer →
      estimateContractFunctionCall tx apiUrl = .error "Transaction is not a token transfer")
    ∧ (∀ (contractName codeBody senderKey : String) (options : ContractDeployOptions)
        (networkFee : Nat), options.fee = Option.none →
      makeSmartContractDeploy contractName codeBody senderKey options networkFee
        = .error "Transaction is not a token transfer")
    ∧ (∀ (addr cname fname : String) (args : List ClarityValue) (senderKey : String)
        (options : ContractDeployOptions) (networkFee : Nat), options.fee = Option.none →
      makeContractCall addr cname fname args senderKey options networkFee
        = .error "Transaction is not a token transfer") := by
  refine ⟨?_, ?_, ?_, ?_⟩
  · intro tx apiUrl h
    rw [estimateContractDeploy, if_pos (bne_iff_ne.mpr h)]
  · intro tx apiUrl h
    rw [estimateContractFunctionCall, if_pos (bne_iff_ne.mpr h)]
  · intro contractName codeBody senderKey options networkFee hfee
    simp [makeSmartContractDeploy, hfee, estimateContractDeploy, makeSmartContractDeployTx,
      Payload.payloadType, Except.map]
  · intro addr cname fname args senderKey options networkFee hfee
    simp [makeContractCall, hfee, estimateContractFunctionCall, makeContractCallTx,
      Payload.payloadType, Except.map]

/-- C8 (witness): the theorem applied to a concrete contract-deploy
transaction and to the builders invoked with the empty options record,
whose `fee` field defaults to none. -/
theorem c8_witness :
    estimateContractDeploy (makeSmartContractDeployTx "kv" "(define-public ...)" "key" {}) Option.none
      = .error "Transaction is not a token transfer"
    ∧ estimateContractFunctionCall (makeContractCallTx "SP000" "kv" "get" [] "key" {}) Option.none
      = .error "Transaction is not a token transfer"
    ∧ makeSmartContractDeploy "kv" "(define-public ...)" "key" {} 0
      = .error "Transaction is not a token transfer"
    ∧ makeContractCall "SP000" "kv" "get" [] "key" {} 0
      = .error "Transaction is not a token transfer" :=
  ⟨c8_estimate_requires_token_transfer.1 _ Option.none (by simp [makeSmartContractDeployTx, Payload.payloadType]),
   c8_estimate_requires_token_transfer.2.1 _ Option.none (by simp [makeContractCallTx, Payload.payloadType]),
   c8_estimate_requires_token_transfer.2.2.1 "kv" "(define-public ...)" "key" {} 0 rfl,
   c8_estimate_requires_token_transfer.2.2.2 "SP000" "kv" "get" [] "key" {} 0 rfl⟩

/-- C9 (counterexample): the claim asserts that `makeSTXTokenTransfer`
constructs its transaction from the default anchor mode even when the
caller supplies a different one, reading line 172's
`defaultOptions.anchorMode`. But `Object.assign(defaultOptions, options)`
mutates `defaultOptions` in place, so that read yields the merged value: a
caller-supplied `OnChainOnly` lands in the constructed transaction, which
therefore does not carry `AnchorMode.Any`. -/
theorem c9_counterexample :
    (makeSTXTokenTransferTx "SP000" 12345 "key"
        { fee := some 1, anchorMode := some AnchorMode.onChainOnly }).anchorMode
      = AnchorMode.onChainOnly
    ∧ (makeSTXTokenTransfer "SP000" 12345 "key"
        { fee := some 1, anchorMode := some AnchorMode.onChainOnly } 0).map StacksTransaction.anchorMode
      = .ok AnchorMode.onChainOnly
    ∧ AnchorMode.onChainOnly ≠ AnchorMode.any :=
  ⟨rfl, rfl, by decide⟩

/-- C9 (amended): for every options object, the transaction constructed by
`makeSTXTokenTransfer` carries the caller-supplied anchor mode when one is
given and the default `AnchorMode.Any` otherwise — exactly as
`makeSmartContractDeploy` and `makeContractCall` do — because the
`defaultOptions.anchorMode` read at part_002 line 172 refers to the record
`Object.assign` has already merged the caller options into; the signed
token transfer returned by `makeSTXTokenTransfer` carries that same anchor
mode. -/
theorem c9_anchor_mode_merged (recipient : String) (amount : Nat) (senderKey : String)
    (tOpts : TokenTransferOptions) (contractName codeBody : String)
    (dOpts : ContractDeployOptions) (addr cname fname : String) (args : List ClarityValue)
    (cOpts : ContractDeployOptions) (networkFee : Nat) :
    (makeSTXTokenTransferTx recipient amount senderKey tOpts).anchorMode
      = tOpts.anchorMode.getD AnchorMode.any
    ∧ (makeSmartContractDeployTx contractName codeBody senderKey dOpts).anchorMode
      = dOpts.anchorMode.getD AnchorMode.any
    ∧ (makeContractCallTx addr cname fname args senderKey cOpts).anchorMode
      = cOpts.anchorMode.getD AnchorMode.any
    ∧ (makeSTXTokenTransfer recipient amount senderKey tOpts networkFee).map StacksTransaction.anchorMode
      = .ok (tOpts.anchorMode.getD AnchorMode.any) := by
  refine ⟨rfl, rfl, rfl, ?_⟩
  cases hfee : tOpts.fee with
  | none =>
    by_cases hk : senderKey == ""
    · simp [makeSTXTokenTransfer, hfee, estimateTransfer, makeSTXTokenTransferTx,
        Payload.payloadType, StacksTransaction.setFee, signOrigin, hk, Except.map]
    · simp [makeSTXTokenTransfer, hfee, estimateTransfer, makeSTXTokenTransferTx,
        Payload.payloadType, StacksTransaction.setFee, signOrigin, hk, Except.map]
  | some f0 =>
    by_cases hk : senderKey == ""
    · simp [makeSTXTokenTransfer, hfee, makeSTXTokenTransferTx, signOrigin, hk, Except.map]
    · simp [makeSTXTokenTransfer, hfee, makeSTXTokenTransferTx, signOrigin, hk, Except.map]

end StacksTx
